import Mathlib

/-!
Shallow embedding of the Reflect backend geo components:
the haversine distance function, the Google-geocoding adapter
(geocodeAddress in supabase/functions/geocode/index.ts), the facility
geocode cache and nearest-facility matcher of the same file, and the
GET /api/distance handler of the express server.
-/

namespace Reflect

/-- JS Math.round: rounds half toward positive infinity. -/
noncomputable def jsRound (x : ℝ) : ℤ := ⌊x + 1 / 2⌋

/-- Rounding to one decimal place, as Math.round(x * 10) / 10 in the source. -/
noncomputable def round1 (x : ℝ) : ℝ := (jsRound (x * 10) : ℝ) / 10

/-- JS Math.atan2 on real arguments (signed zeros are not distinguished). -/
noncomputable def atan2 (y x : ℝ) : ℝ :=
  if 0 < x then Real.arctan (y / x)
  else if x < 0 then
    (if 0 ≤ y then Real.arctan (y / x) + Real.pi else Real.arctan (y / x) - Real.pi)
  else if 0 < y then Real.pi / 2
  else if y < 0 then -(Real.pi / 2)
  else 0

/-- Degrees to radians, the toRad helper of haversine.ts. -/
noncomputable def toRad (deg : ℝ) : ℝ := deg * Real.pi / 180

/-- The intermediate value a of the haversine formula (haversine.ts). -/
noncomputable def havA (lat1 lng1 lat2 lng2 : ℝ) : ℝ :=
  Real.sin (toRad (lat2 - lat1) / 2) ^ 2 +
    Real.cos (toRad lat1) * Real.cos (toRad lat2) *
      Real.sin (toRad (lng2 - lng1) / 2) ^ 2

/-- Haversine distance in miles (haversine.ts; the express server embeds the
same formula inline in its /api/distance handler). -/
noncomputable def haversine (lat1 lng1 lat2 lng2 : ℝ) : ℝ :=
  3958.8 *
    (2 * atan2 (Real.sqrt (havA lat1 lng1 lat2 lng2))
      (Real.sqrt (1 - havA lat1 lng1 lat2 lng2)))

/-! ### Geocoder adapter (geocodeAddress) -/

/-- A latitude/longitude pair as produced by the geocoder. -/
structure Coord where
  lat : ℝ
  lng : ℝ

/-- The distinguishable failure conditions thrown by geocodeAddress. -/
inductive GeoError where
  | missingApiKey : GeoError
  | httpNotOk : Nat → GeoError
  | requestDenied : Option String → GeoError
  | zeroResults : GeoError
  | badStatus : String → GeoError
deriving DecidableEq

/-- The observable state of one Google-geocoding exchange: the configured
credential, the HTTP transport status of the fetch, the provider status
string of the JSON body, its optional error message, and the location of
the first result. -/
structure GeoEnv where
  apiKey : Option String
  httpStatus : Nat
  status : String
  errorMessage : Option String
  location : Coord

/-- fetch Response.ok: HTTP status in the 200-299 range. -/
def fetchOk (status : Nat) : Bool := decide (200 ≤ status) && decide (status < 300)

/-- geocodeAddress from supabase/functions/geocode/index.ts, as a function of
the exchange it observes. -/
def geocodeAddress (env : GeoEnv) : Except GeoError Coord :=
  match env.apiKey with
  | none => Except.error GeoError.missingApiKey
  | some _ =>
    if fetchOk env.httpStatus = false then Except.error (GeoError.httpNotOk env.httpStatus)
    else if env.status = "REQUEST_DENIED" then
      Except.error (GeoError.requestDenied env.errorMessage)
    else if env.status = "ZERO_RESULTS" then Except.error GeoError.zeroResults
    else if env.status ≠ "OK" then Except.error (GeoError.badStatus env.status)
    else Except.ok env.location

/-! ### Facility geocode cache (the "facility" action) -/

/-- The lat, lng, geocoded_at columns of a facilities row. -/
structure FacilityRecord where
  lat : Option ℝ
  lng : Option ℝ
  geocoded_at : Option String

/-- The responses of the "facility" action. -/
inductive FacilityResp where
  | badRequest : FacilityResp
  | lookupFailed : String → FacilityResp
  | geoFailure : GeoError → FacilityResp
  | ok : ℝ → ℝ → Bool → FacilityResp

/-- Result of one "facility" request: the response, the facilities table
afterwards, and how many geocoding-provider calls were made. -/
structure FacilityOutcome where
  resp : FacilityResp
  db : String → Option FacilityRecord
  providerCalls : Nat

/-- The "facility" action of geocode/index.ts: look the facility up, serve
the cached coordinate when both lat and lng are present, otherwise geocode
the supplied address and persist lat, lng and geocoded_at. -/
def facilityAction (provider : String → GeoEnv) (now : String)
    (db : String → Option FacilityRecord) (facility_id address : String) :
    FacilityOutcome :=
  if facility_id = "" ∨ address = "" then ⟨FacilityResp.badRequest, db, 0⟩
  else
    match db facility_id with
    | none => ⟨FacilityResp.lookupFailed "single row not found", db, 0⟩
    | some r0 =>
      match r0.lat, r0.lng with
      | some la, some lg => ⟨FacilityResp.ok la lg true, db, 0⟩
      | _, _ =>
        match geocodeAddress (provider address) with
        | Except.error e => ⟨FacilityResp.geoFailure e, db, 1⟩
        | Except.ok c =>
          ⟨FacilityResp.ok c.lat c.lng false,
            fun fid => if fid = facility_id then
              some ⟨some c.lat, some c.lng, some now⟩ else db fid,
            1⟩

/-! ### Nearest-facility matcher (the "nearest" action) -/

/-- A JSON value as read from the dynamic request body. -/
inductive JsVal where
  | boolean : Bool → JsVal
  | str : String → JsVal
  | num : ℚ → JsVal
  | undef : JsVal
deriving DecidableEq

/-- A facilities row as used by the matcher: region code, optional
coordinates, and the named boolean capability columns. -/
structure FacilityRow where
  state : String
  lat : Option ℝ
  lng : Option ℝ
  flags : String → Bool

/-- The fourteen keys the "nearest" action inspects as boolean filters. -/
def booleanFilters : List String :=
  ["telehealth", "medicaid", "sliding_scale", "private_insurance",
    "trauma_care", "co_occurring", "serves_veterans", "serves_lgbtq",
    "serves_children", "serves_young_adults", "serves_seniors",
    "cbt", "dbt", "emdr"]

/-- A row passes the boolean filters when, for every listed key whose body
value is exactly the boolean true, the column is true on the row. -/
def passesFilters (flagOf : String → JsVal) (f : FacilityRow) : Bool :=
  booleanFilters.all fun k =>
    if flagOf k = JsVal.boolean true then f.flags k else true

/-- The declarative content of the supabase query of the "nearest" action:
exact region match, lat and lng non-null, plus the boolean filters. -/
def rowSelected (state : String) (flagOf : String → JsVal) (f : FacilityRow) :
    Bool :=
  (f.state == state) && f.lat.isSome && f.lng.isSome && passesFilters flagOf f

/-- JS limit || 30: 0 (and an absent limit) falls back to the default 30. -/
def effLimit (limit : Option Int) : Int :=
  match limit with
  | none => 30
  | some l => if l = 0 then 30 else l

/-- JS Array.slice(0, e): for negative e, counts from the end. -/
def jsSliceTo {α : Type} (xs : List α) (e : Int) : List α :=
  if e < 0 then xs.take ((xs.length : Int) + e).toNat
  else xs.take e.toNat

/-- Ordering of the with-distance records by their distance_miles field,
the comparator of the sort in the "nearest" action. -/
def distLE : FacilityRow × ℝ → FacilityRow × ℝ → Prop := fun p q => p.2 ≤ q.2

noncomputable instance : DecidableRel distLE :=
  fun p q => Real.decidableLE p.2 q.2

instance : IsTotal (FacilityRow × ℝ) distLE :=
  ⟨fun a b => le_total a.2 b.2⟩

instance : IsTrans (FacilityRow × ℝ) distLE :=
  ⟨fun _ _ _ h1 h2 => le_trans h1 h2⟩

/-- The "nearest" action after the user query has been geocoded to
(uLat, uLng): select the candidate rows, attach the rounded haversine
distance, sort ascending by it, and slice to the effective limit. -/
noncomputable def nearestResults (uLat uLng : ℝ) (rows : List FacilityRow)
    (state : String) (flagOf : String → JsVal) (limit : Option Int) :
    List (FacilityRow × ℝ) :=
  jsSliceTo
    (List.insertionSort distLE
      ((rows.filter (rowSelected state flagOf)).map fun f =>
        (f, round1 (haversine uLat uLng (f.lat.getD 0) (f.lng.getD 0)))))
    (effLimit limit)

/-! ### Route-distance lookup (GET /api/distance) -/

/-- The first element of the first row of a Distance Matrix response. -/
structure MatrixElement where
  status : Option String
  distanceText : String
  durationText : String

/-- What one /api/distance request observes from its providers: the matrix
element (if the response carried one) and the two geocode results (null
when the geocoder yielded no location). -/
structure DistanceEnv where
  element : Option MatrixElement
  originLoc : Option Coord
  destLoc : Option Coord

/-- driving_distance and driving_duration: populated only when the element
status is the success code OK. -/
def drivingInfo (e : Option MatrixElement) : Option String × Option String :=
  match e with
  | some el =>
    if el.status = some "OK" then (some el.distanceText, some el.durationText)
    else (none, none)
  | none => (none, none)

/-- element?.status of the handler. -/
def elementStatus (e : Option MatrixElement) : Option String :=
  match e with
  | some el => el.status
  | none => none

/-- The responses of GET /api/distance. -/
inductive DistanceResp where
  | badRequest : DistanceResp
  | ok : Option String → Option String → Option ℝ → Option String → DistanceResp

/-- The GET /api/distance handler of the express server. -/
noncomputable def distanceHandler (env : DistanceEnv)
    (origin destination : String) : DistanceResp :=
  if origin = "" ∨ destination = "" then DistanceResp.badRequest
  else
    DistanceResp.ok (drivingInfo env.element).1 (drivingInfo env.element).2
      (match env.originLoc, env.destLoc with
        | some o, some d => some (round1 (haversine o.lat o.lng d.lat d.lng))
        | _, _ => none)
      (elementStatus env.element)

/-! ### Concrete sample data used by witnesses -/

/-- A row whose every capability column is true. -/
def sampleFlags : String → Bool := fun _ => true

/-- A geocoded Alabama facility row. -/
def rowA : FacilityRow := ⟨"AL", some 1, some 2, sampleFlags⟩

/-- A body carrying no boolean filter keys. -/
def undefFlags : String → JsVal := fun _ => JsVal.undef

/-- A body with telehealth true and medicaid explicitly false. -/
def flagsTrueFalse : String → JsVal := fun k =>
  if k = "telehealth" then JsVal.boolean true
  else if k = "medicaid" then JsVal.boolean false
  else JsVal.undef

/-- A body with telehealth true and every other key absent. -/
def flagsTrueOnly : String → JsVal := fun k =>
  if k = "telehealth" then JsVal.boolean true else JsVal.undef

/-- A provider exchange that succeeds with location (12, 34). -/
def env0 : GeoEnv := ⟨some "key", 200, "OK", none, ⟨12, 34⟩⟩

/-- A provider exchange with no configured credential. -/
def envNoKey : GeoEnv := ⟨none, 200, "OK", none, ⟨0, 0⟩⟩

/-- A provider answering every address with env0. -/
def provider0 : String → GeoEnv := fun _ => env0

/-- A provider with a missing credential for every address. -/
def providerNoKey : String → GeoEnv := fun _ => envNoKey

/-- A never-geocoded facility record. -/
def rec0 : FacilityRecord := ⟨none, none, none⟩

/-- A half-written facility record: lng present, lat missing. -/
def recHalf : FacilityRecord := ⟨none, some 7, some "t0"⟩

/-- A one-facility table keyed by f1. -/
def db0 : String → Option FacilityRecord :=
  fun fid => if fid = "f1" then some rec0 else none

/-- A one-facility table whose f1 row is half-written. -/
def dbHalf : String → Option FacilityRecord :=
  fun fid => if fid = "f1" then some recHalf else none

/-- A matrix element reporting a drivable route. -/
def elemOk : MatrixElement := ⟨some "OK", "12.4 mi", "18 mins"⟩

/-- A distance environment where everything succeeded. -/
def envDistOk : DistanceEnv := ⟨some elemOk, some ⟨1, 2⟩, some ⟨3, 4⟩⟩

/-- A distance environment where the destination geocode found nothing. -/
def envDistNoDest : DistanceEnv := ⟨some elemOk, some ⟨1, 2⟩, none⟩

/-! ### Lemmas about the matcher -/

theorem all_congr_mem {l : List String} {g1 g2 : String → Bool}
    (h : ∀ k ∈ l, g1 k = g2 k) : l.all g1 = l.all g2 := by
  induction l with
  | nil => rfl
  | cons a t ih =>
    simp only [List.all_cons]
    rw [h a (by simp), ih fun k hk => h k (by simp [hk])]

theorem nearestResults_sublist (uLat uLng : ℝ) (rows : List FacilityRow)
    (state : String) (flagOf : String → JsVal) (limit : Option Int) :
    List.Sublist (nearestResults uLat uLng rows state flagOf limit)
      (List.insertionSort distLE
        ((rows.filter (rowSelected state flagOf)).map fun f =>
          (f, round1 (haversine uLat uLng (f.lat.getD 0) (f.lng.getD 0))))) := by
  unfold nearestResults jsSliceTo
  split <;> exact List.take_sublist _ _

/-- C1 (amended): the output of the nearest action is sorted ascending by
distance_miles; for a positive limit its length is at most the limit; a
missing or zero limit falls back to the default 30; a negative limit
removes the last |limit| elements of the sorted candidate list rather than
returning an empty result. -/
theorem nearest_sorted_truncated (uLat uLng : ℝ) (rows : List FacilityRow)
    (state : String) (flagOf : String → JsVal) (limit : Option Int) :
    List.Sorted distLE (nearestResults uLat uLng rows state flagOf limit) ∧
    ((limit = none ∨ limit = some 0) →
      (nearestResults uLat uLng rows state flagOf limit).length ≤ 30) ∧
    (∀ l : Int, limit = some l → 0 < l →
      (nearestResults uLat uLng rows state flagOf limit).length ≤ l.toNat) ∧
    (∀ l : Int, limit = some l → l < 0 →
      (nearestResults uLat uLng rows state flagOf limit).length
        = (rows.filter (rowSelected state flagOf)).length - (-l).toNat) := by
  have hsorted : List.Sorted distLE
      (List.insertionSort distLE
        ((rows.filter (rowSelected state flagOf)).map fun f =>
          (f, round1 (haversine uLat uLng (f.lat.getD 0) (f.lng.getD 0))))) :=
    List.sorted_insertionSort distLE _
  have hlen : (List.insertionSort distLE
      ((rows.filter (rowSelected state flagOf)).map fun f =>
        (f, round1 (haversine uLat uLng (f.lat.getD 0) (f.lng.getD 0))))).length
      = (rows.filter (rowSelected state flagOf)).length := by
    rw [List.length_insertionSort, List.length_map]
  refine ⟨hsorted.sublist (nearestResults_sublist _ _ _ _ _ _), ?_, ?_, ?_⟩
  · rintro (h | h) <;> subst h <;>
      simp [nearestResults, jsSliceTo, effLimit, List.length_take]
  · intro l hl hpos
    subst hl
    have hne : l ≠ 0 := by omega
    have hnn : ¬ l < 0 := by omega
    simp only [nearestResults, jsSliceTo, effLimit, if_neg hne, if_neg hnn,
      List.length_take]
    omega
  · intro l hl hneg
    subst hl
    have hne : l ≠ 0 := by omega
    simp only [nearestResults, jsSliceTo, effLimit, if_neg hne, if_pos hneg,
      List.length_take, hlen]
    omega

/-- C1 witness: with limit 2 the output has at most 2 entries. -/
theorem nearest_sorted_truncated_witness :
    (nearestResults 0 0 [rowA] "AL" undefFlags (some 2)).length
      ≤ (2 : Int).toNat :=
  (nearest_sorted_truncated 0 0 [rowA] "AL" undefFlags (some 2)).2.2.1 2 rfl
    (by norm_num)

/-- C1 counterexample: with limit 0 and one matching facility the output has
one entry, not zero: limit 0 falls back to the default 30 instead of
producing an empty result. -/
theorem nearest_limit_zero_counterexample :
    (nearestResults 0 0 [rowA] "AL" undefFlags (some 0)).length = 1 ∧
    nearestResults 0 0 [rowA] "AL" undefFlags (some 0) ≠ [] := by
  have h1 : (nearestResults 0 0 [rowA] "AL" undefFlags (some 0)).length = 1 := rfl
  refine ⟨h1, fun h => ?_⟩
  rw [h] at h1
  simp at h1

/-- C3: every facility in the nearest output matches the query region
exactly, has non-null lat and lng, and carries every capability whose flag
is exactly true in the body. -/
theorem nearest_member_invariants (uLat uLng : ℝ) (rows : List FacilityRow)
    (state : String) (flagOf : String → JsVal) (limit : Option Int)
    (f : FacilityRow) (d : ℝ)
    (hmem : (f, d) ∈ nearestResults uLat uLng rows state flagOf limit) :
    f.state = state ∧ f.lat.isSome = true ∧ f.lng.isSome = true ∧
      ∀ k ∈ booleanFilters, flagOf k = JsVal.boolean true → f.flags k = true := by
  have h2 := (nearestResults_sublist uLat uLng rows state flagOf limit).subset hmem
  have h3 := (List.perm_insertionSort distLE
      ((rows.filter (rowSelected state flagOf)).map fun f =>
        (f, round1 (haversine uLat uLng (f.lat.getD 0) (f.lng.getD 0))))).subset h2
  obtain ⟨g, hg, heq⟩ := List.mem_map.mp h3
  have hgf : g = f := congrArg Prod.fst heq
  subst hgf
  have hsel : rowSelected state flagOf g = true := (List.mem_filter.mp hg).2
  simp only [rowSelected, Bool.and_eq_true, beq_iff_eq] at hsel
  obtain ⟨⟨⟨hstate, hlat⟩, hlng⟩, hpass⟩ := hsel
  refine ⟨hstate, hlat, hlng, fun k hk htrue => ?_⟩
  have hall := (List.all_eq_true.mp hpass) k hk
  rwa [if_pos htrue] at hall

/-- C3 witness: the single row of a one-facility table appears in the output
and satisfies the invariants. -/
theorem nearest_member_witness :
    rowA.state = "AL" ∧ rowA.lat.isSome = true ∧ rowA.lng.isSome = true ∧
      ∀ k ∈ booleanFilters, undefFlags k = JsVal.boolean true →
        rowA.flags k = true :=
  nearest_member_invariants 0 0 [rowA] "AL" undefFlags none rowA
    (round1 (haversine 0 0 1 2))
    (by
      show (rowA, round1 (haversine 0 0 1 2))
        ∈ [(rowA, round1 (haversine 0 0 1 2))]
      exact List.mem_singleton.mpr rfl)

/-- C9: selection depends only on which of the fourteen listed keys carry
exactly the boolean true: two bodies agreeing on that truth status for
every listed key select the same rows, however their other keys and their
non-true values (false, strings, numbers, absent) differ; and a body with
no true-valued listed key imposes nothing beyond region and coordinates. -/
theorem nearest_filter_keys (state : String) (f : FacilityRow)
    (fl1 fl2 : String → JsVal)
    (hagree : ∀ k ∈ booleanFilters,
      (fl1 k = JsVal.boolean true ↔ fl2 k = JsVal.boolean true)) :
    rowSelected state fl1 f = rowSelected state fl2 f ∧
    ((∀ k ∈ booleanFilters, fl1 k ≠ JsVal.boolean true) →
      rowSelected state fl1 f
        = ((f.state == state) && f.lat.isSome && f.lng.isSome)) := by
  constructor
  · unfold rowSelected passesFilters
    congr 1
    refine all_congr_mem fun k hk => ?_
    by_cases h : fl1 k = JsVal.boolean true
    · rw [if_pos h, if_pos ((hagree k hk).mp h)]
    · rw [if_neg h, if_neg fun h2 => h ((hagree k hk).mpr h2)]
  · intro hno
    unfold rowSelected passesFilters
    have hall : (booleanFilters.all fun k =>
        if fl1 k = JsVal.boolean true then f.flags k else true) = true :=
      List.all_eq_true.mpr fun k hk => by rw [if_neg (hno k hk)]
    rw [hall, Bool.and_true]

/-- C9 witness: a body with telehealth true and medicaid explicitly false
selects exactly like one with telehealth true alone, and a body with no
filter keys selects on region and coordinates alone. -/
theorem nearest_filter_keys_witness :
    rowSelected "AL" flagsTrueFalse rowA = rowSelected "AL" flagsTrueOnly rowA ∧
    rowSelected "AL" undefFlags rowA
      = ((rowA.state == "AL") && rowA.lat.isSome && rowA.lng.isSome) :=
  ⟨(nearest_filter_keys "AL" rowA flagsTrueFalse flagsTrueOnly (by decide)).1,
    (nearest_filter_keys "AL" rowA undefFlags undefFlags
      (fun _ _ => Iff.rfl)).2 (by decide)⟩

/-! ### Lemmas about the facility geocode cache -/

theorem facilityAction_miss_ok (provider : String → GeoEnv) (now : String)
    (db : String → Option FacilityRecord) (fid addr : String)
    (r : FacilityRecord) (c : Coord)
    (hfid : fid ≠ "") (haddr : addr ≠ "")
    (hdb : db fid = some r) (hmiss : r.lat = none ∨ r.lng = none)
    (hgeo : geocodeAddress (provider addr) = Except.ok c) :
    facilityAction provider now db fid addr
      = ⟨FacilityResp.ok c.lat c.lng false,
          fun fid2 => if fid2 = fid then
            some ⟨some c.lat, some c.lng, some now⟩ else db fid2, 1⟩ := by
  have hparams : ¬ (fid = "" ∨ addr = "") := by
    rintro (h | h)
    · exact hfid h
    · exact haddr h
  unfold facilityAction
  rw [if_neg hparams]
  rcases hmiss with h | h
  · rcases hl : r.lng with _ | lg <;> simp [hdb, h, hl, hgeo]
  · rcases hl : r.lat with _ | la <;> simp [hdb, h, hl, hgeo]

theorem facilityAction_miss_error (provider : String → GeoEnv) (now : String)
    (db : String → Option FacilityRecord) (fid addr : String)
    (r : FacilityRecord) (e : GeoError)
    (hfid : fid ≠ "") (haddr : addr ≠ "")
    (hdb : db fid = some r) (hmiss : r.lat = none ∨ r.lng = none)
    (hgeo : geocodeAddress (provider addr) = Except.error e) :
    facilityAction provider now db fid addr
      = ⟨FacilityResp.geoFailure e, db, 1⟩ := by
  have hparams : ¬ (fid = "" ∨ addr = "") := by
    rintro (h | h)
    · exact hfid h
    · exact haddr h
  unfold facilityAction
  rw [if_neg hparams]
  rcases hmiss with h | h
  · rcases hl : r.lng with _ | lg <;> simp [hdb, h, hl, hgeo]
  · rcases hl : r.lat with _ | la <;> simp [hdb, h, hl, hgeo]

/-- C2: on a never-geocoded facility the first call geocodes and caches;
running the action again on the resulting table serves the very pair the
first call cached, marks it cached, makes no provider call and leaves the
table unchanged. -/
theorem facility_cache_roundtrip (provider : String → GeoEnv)
    (now1 now2 : String) (db : String → Option FacilityRecord)
    (fid addr : String) (r : FacilityRecord) (c : Coord)
    (hfid : fid ≠ "") (haddr : addr ≠ "")
    (hdb : db fid = some r) (hmiss : r.lat = none ∨ r.lng = none)
    (hgeo : geocodeAddress (provider addr) = Except.ok c) :
    (facilityAction provider now1 db fid addr).resp
      = FacilityResp.ok c.lat c.lng false ∧
    (facilityAction provider now1 db fid addr).providerCalls = 1 ∧
    (facilityAction provider now2 (facilityAction provider now1 db fid addr).db
        fid addr).resp = FacilityResp.ok c.lat c.lng true ∧
    (facilityAction provider now2 (facilityAction provider now1 db fid addr).db
        fid addr).providerCalls = 0 ∧
    (facilityAction provider now2 (facilityAction provider now1 db fid addr).db
        fid addr).db = (facilityAction provider now1 db fid addr).db := by
  have hparams : ¬ (fid = "" ∨ addr = "") := by
    rintro (h | h)
    · exact hfid h
    · exact haddr h
  have h1 := facilityAction_miss_ok provider now1 db fid addr r c
    hfid haddr hdb hmiss hgeo
  have h3 : facilityAction provider now2
      (facilityAction provider now1 db fid addr).db fid addr
      = ⟨FacilityResp.ok c.lat c.lng true,
          (facilityAction provider now1 db fid addr).db, 0⟩ := by
    rw [h1]
    unfold facilityAction
    rw [if_neg hparams]
    simp
  exact ⟨by rw [h1], by rw [h1], by rw [h3], by rw [h3], by rw [h3]⟩

/-- C2 witness: the roundtrip on a concrete one-facility table. -/
theorem facility_cache_roundtrip_witness :
    (facilityAction provider0 "t1" db0 "f1" "addr").resp
      = FacilityResp.ok 12 34 false ∧
    (facilityAction provider0 "t1" db0 "f1" "addr").providerCalls = 1 ∧
    (facilityAction provider0 "t2"
        (facilityAction provider0 "t1" db0 "f1" "addr").db "f1" "addr").resp
      = FacilityResp.ok 12 34 true ∧
    (facilityAction provider0 "t2"
        (facilityAction provider0 "t1" db0 "f1" "addr").db "f1"
        "addr").providerCalls = 0 ∧
    (facilityAction provider0 "t2"
        (facilityAction provider0 "t1" db0 "f1" "addr").db "f1" "addr").db
      = (facilityAction provider0 "t1" db0 "f1" "addr").db :=
  facility_cache_roundtrip provider0 "t1" "t2" db0 "f1" "addr" rec0 ⟨12, 34⟩
    (by decide) (by decide) rfl (Or.inl rfl) rfl

/-- C5: when the geocoder fails, the facility action surfaces that failure
and writes nothing: the facilities table afterwards is the table before. -/
theorem facility_geocode_failure_no_write (provider : String → GeoEnv)
    (now : String) (db : String → Option FacilityRecord)
    (fid addr : String) (r : FacilityRecord) (e : GeoError)
    (hfid : fid ≠ "") (haddr : addr ≠ "")
    (hdb : db fid = some r) (hmiss : r.lat = none ∨ r.lng = none)
    (hgeo : geocodeAddress (provider addr) = Except.error e) :
    (facilityAction provider now db fid addr).resp
      = FacilityResp.geoFailure e ∧
    (facilityAction provider now db fid addr).db = db ∧
    (facilityAction provider now db fid addr).providerCalls = 1 := by
  have h1 := facilityAction_miss_error provider now db fid addr r e
    hfid haddr hdb hmiss hgeo
  exact ⟨by rw [h1], by rw [h1], by rw [h1]⟩

/-- C5 witness: a missing credential propagates as missingApiKey and leaves
the concrete table untouched. -/
theorem facility_geocode_failure_witness :
    (facilityAction providerNoKey "t1" db0 "f1" "addr").resp
      = FacilityResp.geoFailure GeoError.missingApiKey ∧
    (facilityAction providerNoKey "t1" db0 "f1" "addr").db = db0 ∧
    (facilityAction providerNoKey "t1" db0 "f1" "addr").providerCalls = 1 :=
  facility_geocode_failure_no_write providerNoKey "t1" db0 "f1" "addr" rec0
    GeoError.missingApiKey (by decide) (by decide) rfl (Or.inl rfl) rfl

/-- C10: a record with exactly one of lat and lng null is not a cache hit:
the supplied address is geocoded (one provider call) and lat, lng and
geocoded_at are all overwritten with the fresh result. -/
theorem facility_half_record_regeocode (provider : String → GeoEnv)
    (now : String) (db : String → Option FacilityRecord)
    (fid addr : String) (r : FacilityRecord) (c : Coord)
    (hfid : fid ≠ "") (haddr : addr ≠ "")
    (hdb : db fid = some r)
    (hone : (r.lat = none ∧ r.lng ≠ none) ∨ (r.lat ≠ none ∧ r.lng = none))
    (hgeo : geocodeAddress (provider addr) = Except.ok c) :
    (facilityAction provider now db fid addr).providerCalls = 1 ∧
    (facilityAction provider now db fid addr).resp
      = FacilityResp.ok c.lat c.lng false ∧
    (facilityAction provider now db fid addr).db fid
      = some ⟨some c.lat, some c.lng, some now⟩ := by
  have hmiss : r.lat = none ∨ r.lng = none := hone.imp And.left And.right
  have h1 := facilityAction_miss_ok provider now db fid addr r c
    hfid haddr hdb hmiss hgeo
  refine ⟨by rw [h1], by rw [h1], ?_⟩
  rw [h1]
  simp

/-- C10 witness: a row with lng set but lat null is re-geocoded and fully
overwritten. -/
theorem facility_half_record_witness :
    (facilityAction provider0 "t1" dbHalf "f1" "addr").providerCalls = 1 ∧
    (facilityAction provider0 "t1" dbHalf "f1" "addr").resp
      = FacilityResp.ok 12 34 false ∧
    (facilityAction provider0 "t1" dbHalf "f1" "addr").db "f1"
      = some ⟨some 12, some 34, some "t1"⟩ :=
  facility_half_record_regeocode provider0 "t1" dbHalf "f1" "addr" recHalf
    ⟨12, 34⟩ (by decide) (by decide) rfl
    (Or.inl ⟨rfl, by decide⟩) rfl

/-! ### Lemmas about the route-distance lookup -/

/-- C4: with both parameters present, the /api/distance handler succeeds:
when both geocodes yield a location, straight_miles is the haversine
distance rounded to one decimal place; when either yields none,
straight_miles is null while the driving fields from the matrix call are
still returned. -/
theorem distance_partial_result (env : DistanceEnv)
    (origin destination : String)
    (ho : origin ≠ "") (hd : destination ≠ "") :
    (∀ o d2 : Coord, env.originLoc = some o → env.destLoc = some d2 →
      distanceHandler env origin destination
        = DistanceResp.ok (drivingInfo env.element).1 (drivingInfo env.element).2
            (some (round1 (haversine o.lat o.lng d2.lat d2.lng)))
            (elementStatus env.element)) ∧
    ((env.originLoc = none ∨ env.destLoc = none) →
      distanceHandler env origin destination
        = DistanceResp.ok (drivingInfo env.element).1 (drivingInfo env.element).2
            none (elementStatus env.element)) := by
  have hparams : ¬ (origin = "" ∨ destination = "") := by
    rintro (h | h)
    · exact ho h
    · exact hd h
  constructor
  · intro o d2 h1 h2
    unfold distanceHandler
    rw [if_neg hparams, h1, h2]
  · intro h
    unfold distanceHandler
    rw [if_neg hparams]
    rcases h with h | h
    · rw [h]
    · rcases ho2 : env.originLoc with _ | o <;> rw [h]

/-- C4 witness: concrete environments for the both-geocodes and
missing-destination cases. -/
theorem distance_partial_result_witness :
    distanceHandler envDistOk "53703" "dothan"
      = DistanceResp.ok (some "12.4 mi") (some "18 mins")
          (some (round1 (haversine 1 2 3 4))) (some "OK") ∧
    distanceHandler envDistNoDest "53703" "dothan"
      = DistanceResp.ok (some "12.4 mi") (some "18 mins") none (some "OK") :=
  ⟨(distance_partial_result envDistOk "53703" "dothan"
      (by decide) (by decide)).1 ⟨1, 2⟩ ⟨3, 4⟩ rfl rfl,
    (distance_partial_result envDistNoDest "53703" "dothan"
      (by decide) (by decide)).2 (Or.inr rfl)⟩

/-! ### Lemmas about the haversine formula -/

theorem havA_symm (lat1 lng1 lat2 lng2 : ℝ) :
    havA lat1 lng1 lat2 lng2 = havA lat2 lng2 lat1 lng1 := by
  unfold havA toRad
  have h1 : (lat1 - lat2) * Real.pi / 180 / 2
      = -((lat2 - lat1) * Real.pi / 180 / 2) := by ring
  have h2 : (lng1 - lng2) * Real.pi / 180 / 2
      = -((lng2 - lng1) * Real.pi / 180 / 2) := by ring
  rw [h1, h2, Real.sin_neg, Real.sin_neg]
  ring

theorem havA_self (lat lng : ℝ) : havA lat lng lat lng = 0 := by
  unfold havA toRad
  have h1 : (lat - lat) * Real.pi / 180 / 2 = 0 := by ring
  have h2 : (lng - lng) * Real.pi / 180 / 2 = 0 := by ring
  rw [h1, h2, Real.sin_zero]
  ring

theorem atan2_zero_one : atan2 0 1 = 0 := by
  unfold atan2
  rw [if_pos one_pos]
  norm_num [Real.arctan_zero]

/-- C6: the haversine distance is symmetric in its two coordinate pairs and
zero on equal pairs. -/
theorem haversine_symm_self (lat1 lng1 lat2 lng2 lat lng : ℝ) :
    haversine lat1 lng1 lat2 lng2 = haversine lat2 lng2 lat1 lng1 ∧
    haversine lat lng lat lng = 0 := by
  constructor
  · unfold haversine
    rw [havA_symm lat1 lng1 lat2 lng2]
  · unfold haversine
    rw [havA_self, Real.sqrt_zero]
    norm_num [Real.sqrt_one, atan2_zero_one]

theorem sin_sq_add_cos_mul_bounds (A B V : ℝ) :
    0 ≤ Real.sin ((B - A) / 2) ^ 2 + Real.cos A * Real.cos B * Real.sin V ^ 2 ∧
    Real.sin ((B - A) / 2) ^ 2 + Real.cos A * Real.cos B * Real.sin V ^ 2 ≤ 1 := by
  have hdouble : 2 * ((B - A) / 2) = B - A := by ring
  have hs : Real.sin ((B - A) / 2) ^ 2 = 1 / 2 - Real.cos (B - A) / 2 := by
    rw [Real.sin_sq_eq_half_sub, hdouble]
  have hcsub : Real.cos (B - A) = Real.cos B * Real.cos A + Real.sin B * Real.sin A :=
    Real.cos_sub B A
  have hcadd : Real.cos (B + A) = Real.cos B * Real.cos A - Real.sin B * Real.sin A :=
    Real.cos_add B A
  have hv0 : 0 ≤ Real.sin V ^ 2 := sq_nonneg _
  have hv1 : Real.sin V ^ 2 ≤ 1 := Real.sin_sq_le_one V
  have h1' : 0 ≤ 1 - (Real.cos B * Real.cos A - Real.sin B * Real.sin A) := by
    rw [← hcadd]; linarith [Real.cos_le_one (B + A)]
  have h3' : 0 ≤ 1 + (Real.cos B * Real.cos A + Real.sin B * Real.sin A) := by
    rw [← hcsub]; linarith [Real.neg_one_le_cos (B - A)]
  have h4' : 0 ≤ 1 + (Real.cos B * Real.cos A - Real.sin B * Real.sin A) := by
    rw [← hcadd]; linarith [Real.neg_one_le_cos (B + A)]
  have h5' : 0 ≤ 1 - (Real.cos B * Real.cos A + Real.sin B * Real.sin A) := by
    rw [← hcsub]; linarith [Real.cos_le_one (B - A)]
  have h2' : 0 ≤ 1 - Real.sin V ^ 2 := by linarith
  rw [hs, hcsub]
  constructor
  · nlinarith [mul_nonneg hv0 h4', mul_nonneg h2' h5']
  · nlinarith [mul_nonneg hv0 h1', mul_nonneg h2' h3']

theorem havA_bounds (lat1 lng1 lat2 lng2 : ℝ) :
    0 ≤ havA lat1 lng1 lat2 lng2 ∧ havA lat1 lng1 lat2 lng2 ≤ 1 := by
  unfold havA toRad
  have h : (lat2 - lat1) * Real.pi / 180 / 2
      = (lat2 * Real.pi / 180 - lat1 * Real.pi / 180) / 2 := by ring
  rw [h]
  exact sin_sq_add_cos_mul_bounds (lat1 * Real.pi / 180) (lat2 * Real.pi / 180)
    ((lng2 - lng1) * Real.pi / 180 / 2)

theorem atan2_sqrt_nonneg_le {a : ℝ} (h0 : 0 ≤ a) (h1 : a ≤ 1) :
    0 ≤ atan2 (Real.sqrt a) (Real.sqrt (1 - a)) ∧
    atan2 (Real.sqrt a) (Real.sqrt (1 - a)) ≤ Real.pi / 2 := by
  rcases lt_or_eq_of_le h1 with hlt | heq
  · have hx : 0 < Real.sqrt (1 - a) := Real.sqrt_pos.mpr (by linarith)
    unfold atan2
    rw [if_pos hx]
    constructor
    · have ht : 0 ≤ Real.sqrt a / Real.sqrt (1 - a) :=
        div_nonneg (Real.sqrt_nonneg _) hx.le
      calc (0 : ℝ) = Real.arctan 0 := Real.arctan_zero.symm
        _ ≤ _ := Real.arctan_strictMono.monotone ht
    · exact (Real.arctan_lt_pi_div_two _).le
  · subst heq
    have hz : (1 : ℝ) - 1 = 0 := by norm_num
    rw [hz, Real.sqrt_zero, Real.sqrt_one]
    unfold atan2
    norm_num
    linarith [Real.pi_pos]

/-- C7: the haversine formula is total on all real inputs, in range or out
of range: the intermediate a always lies in the unit interval so no square
root sees a negative argument, and the result is finite, between 0 and
3958.8 * pi. -/
theorem haversine_total_bounded (lat1 lng1 lat2 lng2 : ℝ) :
    0 ≤ havA lat1 lng1 lat2 lng2 ∧ havA lat1 lng1 lat2 lng2 ≤ 1 ∧
    0 ≤ haversine lat1 lng1 lat2 lng2 ∧
    haversine lat1 lng1 lat2 lng2 ≤ 3958.8 * Real.pi := by
  obtain ⟨h0, h1⟩ := havA_bounds lat1 lng1 lat2 lng2
  obtain ⟨h2, h3⟩ := atan2_sqrt_nonneg_le h0 h1
  refine ⟨h0, h1, ?_, ?_⟩
  · unfold haversine
    nlinarith [h2]
  · unfold haversine
    nlinarith [h3]

/-! ### Interval bounds for sin and cos, toward the NYC-LA scenario -/

theorem sin_interval {x xl xu : ℝ} (h0 : 0 ≤ xl) (h1 : xu ≤ 1)
    (hxl : xl ≤ x) (hxu : x ≤ xu) :
    xl - xu ^ 3 / 6 - xu ^ 4 * (5 / 96) ≤ Real.sin x ∧
    Real.sin x ≤ xu - xl ^ 3 / 6 + xu ^ 4 * (5 / 96) := by
  have hx0 : 0 ≤ x := le_trans h0 hxl
  have hxb : |x| ≤ 1 := by
    rw [abs_of_nonneg hx0]
    exact le_trans hxu h1
  have hb := Real.sin_bound hxb
  rw [abs_of_nonneg hx0, abs_sub_le_iff] at hb
  obtain ⟨hb1, hb2⟩ := hb
  have hx3l : xl ^ 3 ≤ x ^ 3 := pow_le_pow_left₀ h0 hxl 3
  have hx3u : x ^ 3 ≤ xu ^ 3 := pow_le_pow_left₀ hx0 hxu 3
  have hx4 : x ^ 4 ≤ xu ^ 4 := pow_le_pow_left₀ hx0 hxu 4
  constructor <;> nlinarith

theorem cos_interval {x xl xu : ℝ} (h0 : 0 ≤ xl) (h1 : xu ≤ 1)
    (hxl : xl ≤ x) (hxu : x ≤ xu) :
    1 - xu ^ 2 / 2 - xu ^ 4 * (5 / 96) ≤ Real.cos x ∧
    Real.cos x ≤ 1 - xl ^ 2 / 2 + xu ^ 4 * (5 / 96) := by
  have hx0 : 0 ≤ x := le_trans h0 hxl
  have hxb : |x| ≤ 1 := by
    rw [abs_of_nonneg hx0]
    exact le_trans hxu h1
  have hb := Real.cos_bound hxb
  rw [abs_of_nonneg hx0, abs_sub_le_iff] at hb
  obtain ⟨hb1, hb2⟩ := hb
  have hx2l : xl ^ 2 ≤ x ^ 2 := pow_le_pow_left₀ h0 hxl 2
  have hx2u : x ^ 2 ≤ xu ^ 2 := pow_le_pow_left₀ hx0 hxu 2
  have hx4 : x ^ 4 ≤ xu ^ 4 := pow_le_pow_left₀ hx0 hxu 4
  constructor <;> nlinarith

theorem mul_interval {x y a b c d : ℝ} (ha : 0 ≤ a) (hc : 0 ≤ c)
    (hxa : a ≤ x) (hxb : x ≤ b) (hyc : c ≤ y) (hyd : y ≤ d) :
    a * c ≤ x * y ∧ x * y ≤ b * d := by
  constructor
  · exact mul_le_mul hxa hyc hc (le_trans ha hxa)
  · exact mul_le_mul hxb hyd (le_trans hc hyc) (le_trans (le_trans ha hxa) hxb)

theorem sq_interval {x a b : ℝ} (ha : 0 ≤ a) (hxa : a ≤ x) (hxb : x ≤ b) :
    a ^ 2 ≤ x ^ 2 ∧ x ^ 2 ≤ b ^ 2 :=
  ⟨pow_le_pow_left₀ ha hxa 2, pow_le_pow_left₀ (le_trans ha hxa) hxb 2⟩

theorem cos_double_sin (z : ℝ) :
    Real.cos (2 * z) = 1 - 2 * Real.sin z ^ 2 := by
  rw [Real.cos_two_mul]
  linear_combination 2 * Real.sin_sq_add_cos_sq z

theorem sin_double_interval {y sl su cl cu : ℝ} (hsl : 0 ≤ sl) (hcl : 0 ≤ cl)
    (h1 : sl ≤ Real.sin y) (h2 : Real.sin y ≤ su)
    (h3 : cl ≤ Real.cos y) (h4 : Real.cos y ≤ cu) :
    2 * (sl * cl) ≤ Real.sin (2 * y) ∧ Real.sin (2 * y) ≤ 2 * (su * cu) := by
  rw [Real.sin_two_mul]
  obtain ⟨hm1, hm2⟩ := mul_interval hsl hcl h1 h2 h3 h4
  constructor <;> nlinarith

theorem cos_double_interval {y sl su : ℝ} (hsl : 0 ≤ sl)
    (h1 : sl ≤ Real.sin y) (h2 : Real.sin y ≤ su) :
    1 - 2 * su ^ 2 ≤ Real.cos (2 * y) ∧ Real.cos (2 * y) ≤ 1 - 2 * sl ^ 2 := by
  rw [cos_double_sin]
  obtain ⟨hm1, hm2⟩ := sq_interval hsl h1 h2
  constructor <;> linarith

theorem sin_arctan_sqrt {a : ℝ} (h0 : 0 ≤ a) (h1 : a < 1) :
    Real.sin (Real.arctan (Real.sqrt a / Real.sqrt (1 - a))) = Real.sqrt a := by
  have h1a : 0 < 1 - a := by linarith
  have hz : Real.sqrt (1 - a) ≠ 0 := (Real.sqrt_pos.mpr h1a).ne'
  rw [Real.sin_arctan]
  have ht2 : (Real.sqrt a / Real.sqrt (1 - a)) ^ 2 = a / (1 - a) := by
    rw [div_pow, Real.sq_sqrt h0, Real.sq_sqrt h1a.le]
  rw [ht2]
  have hden : 1 + a / (1 - a) = 1 / (1 - a) := by field_simp
  rw [hden, one_div, Real.sqrt_inv]
  field_simp

/-- Bridge lemma: when the intermediate a of the haversine formula is
squeezed between the squared sines of two half-angles in the first
quadrant, the distance is squeezed between the corresponding arcs. -/
theorem haversine_bounds_of_sin_sq {lat1 lng1 lat2 lng2 B1 B2 : ℝ}
    (hB1 : 0 ≤ B1) (hB2 : B2 ≤ Real.pi / 2) (hB12 : B1 ≤ B2)
    (hs1 : Real.sin B1 ^ 2 ≤ havA lat1 lng1 lat2 lng2)
    (hs2 : havA lat1 lng1 lat2 lng2 ≤ Real.sin B2 ^ 2)
    (h0 : 0 ≤ havA lat1 lng1 lat2 lng2)
    (hlt : havA lat1 lng1 lat2 lng2 < 1) :
    3958.8 * (2 * B1) ≤ haversine lat1 lng1 lat2 lng2 ∧
    haversine lat1 lng1 lat2 lng2 ≤ 3958.8 * (2 * B2) := by
  have hpi := Real.pi_pos
  have h1a : 0 < 1 - havA lat1 lng1 lat2 lng2 := by linarith
  have hsq : 0 < Real.sqrt (1 - havA lat1 lng1 lat2 lng2) := Real.sqrt_pos.mpr h1a
  have hd_eq : haversine lat1 lng1 lat2 lng2
      = 3958.8 * (2 * Real.arctan (Real.sqrt (havA lat1 lng1 lat2 lng2)
          / Real.sqrt (1 - havA lat1 lng1 lat2 lng2))) := by
    unfold haversine atan2
    rw [if_pos hsq]
  have hsinθ := sin_arctan_sqrt h0 hlt
  have hθ0 : 0 ≤ Real.arctan (Real.sqrt (havA lat1 lng1 lat2 lng2)
      / Real.sqrt (1 - havA lat1 lng1 lat2 lng2)) := by
    have hm := Real.arctan_strictMono.monotone
      (div_nonneg (Real.sqrt_nonneg (havA lat1 lng1 lat2 lng2)) hsq.le)
    rwa [Real.arctan_zero] at hm
  have hθhi := Real.arctan_lt_pi_div_two (Real.sqrt (havA lat1 lng1 lat2 lng2)
      / Real.sqrt (1 - havA lat1 lng1 lat2 lng2))
  have hsB1 : Real.sin B1 ≤ Real.sqrt (havA lat1 lng1 lat2 lng2) := by
    have hnn : 0 ≤ Real.sin B1 :=
      Real.sin_nonneg_of_nonneg_of_le_pi hB1 (by linarith)
    calc Real.sin B1 = Real.sqrt (Real.sin B1 ^ 2) := (Real.sqrt_sq hnn).symm
      _ ≤ _ := Real.sqrt_le_sqrt hs1
  have hsB2 : Real.sqrt (havA lat1 lng1 lat2 lng2) ≤ Real.sin B2 := by
    have hnn : 0 ≤ Real.sin B2 :=
      Real.sin_nonneg_of_nonneg_of_le_pi (le_trans hB1 hB12) (by linarith)
    calc Real.sqrt (havA lat1 lng1 lat2 lng2)
        ≤ Real.sqrt (Real.sin B2 ^ 2) := Real.sqrt_le_sqrt hs2
      _ = Real.sin B2 := Real.sqrt_sq hnn
  have hB1θ : B1 ≤ Real.arctan (Real.sqrt (havA lat1 lng1 lat2 lng2)
      / Real.sqrt (1 - havA lat1 lng1 lat2 lng2)) := by
    by_contra hcon
    push_neg at hcon
    have hmem1 : Real.arctan (Real.sqrt (havA lat1 lng1 lat2 lng2)
        / Real.sqrt (1 - havA lat1 lng1 lat2 lng2))
        ∈ Set.Icc (-(Real.pi / 2)) (Real.pi / 2) :=
      ⟨by linarith, hθhi.le⟩
    have hmem2 : B1 ∈ Set.Icc (-(Real.pi / 2)) (Real.pi / 2) :=
      ⟨by linarith, by linarith⟩
    have hlt2 := Real.strictMonoOn_sin hmem1 hmem2 hcon
    rw [hsinθ] at hlt2
    linarith
  have hθB2 : Real.arctan (Real.sqrt (havA lat1 lng1 lat2 lng2)
      / Real.sqrt (1 - havA lat1 lng1 lat2 lng2)) ≤ B2 := by
    by_contra hcon
    push_neg at hcon
    have hmem1 : B2 ∈ Set.Icc (-(Real.pi / 2)) (Real.pi / 2) :=
      ⟨by linarith, hB2⟩
    have hmem2 : Real.arctan (Real.sqrt (havA lat1 lng1 lat2 lng2)
        / Real.sqrt (1 - havA lat1 lng1 lat2 lng2))
        ∈ Set.Icc (-(Real.pi / 2)) (Real.pi / 2) :=
      ⟨by linarith, hθhi.le⟩
    have hlt2 := Real.strictMonoOn_sin hmem1 hmem2 hcon
    rw [hsinθ] at hlt2
    linarith
  rw [hd_eq]
  constructor <;> nlinarith

set_option maxHeartbeats 3200000 in
/-- C8: the haversine distance between (40.7128, -74.0060) and
(34.0522, -118.2437) is within 5 miles of 2445 miles. -/
theorem haversine_nyc_la :
    |haversine 40.7128 (-74.0060) 34.0522 (-118.2437) - 2445| ≤ 5 := by
  have hpl : (3.141592 : ℝ) < Real.pi := Real.pi_gt_d6
  have hpu : Real.pi < 3.141593 := Real.pi_lt_d6
  -- sin of the half latitude difference, 6.6606 deg / 2
  have hA1a : (0.05812468 : ℝ) ≤ 6.6606 * Real.pi / 360 := by linarith
  have hA1b : (6.6606 : ℝ) * Real.pi / 360 ≤ 0.05812471 := by linarith
  have hsA1i := sin_interval (by norm_num) (by norm_num) hA1a hA1b
  have hsA1l : (0.05809135 : ℝ) ≤ Real.sin (6.6606 * Real.pi / 360) :=
    le_trans (by norm_num) hsA1i.1
  have hsA1u : Real.sin (6.6606 * Real.pi / 360) ≤ 0.05809258 :=
    le_trans hsA1i.2 (by norm_num)
  -- sin of the half longitude difference, 44.2377 deg / 2, via one halving
  have hA2a : (0.19302333 : ℝ) ≤ 44.2377 * Real.pi / 720 := by linarith
  have hA2b : (44.2377 : ℝ) * Real.pi / 720 ≤ 0.19302341 := by linarith
  have hsA2i := sin_interval (by norm_num) (by norm_num) hA2a hA2b
  have hcA2i := cos_interval (by norm_num) (by norm_num) hA2a hA2b
  have hsA2hl : (0.19175241 : ℝ) ≤ Real.sin (44.2377 * Real.pi / 720) :=
    le_trans (by norm_num) hsA2i.1
  have hsA2hu : Real.sin (44.2377 * Real.pi / 720) ≤ 0.19189710 :=
    le_trans hsA2i.2 (by norm_num)
  have hcA2hl : (0.98129868 : ℝ) ≤ Real.cos (44.2377 * Real.pi / 720) :=
    le_trans (by norm_num) hcA2i.1
  have hcA2hu : Real.cos (44.2377 * Real.pi / 720) ≤ 0.98144330 :=
    le_trans hcA2i.2 (by norm_num)
  have hsA2d := sin_double_interval (by norm_num) (by norm_num)
    hsA2hl hsA2hu hcA2hl hcA2hu
  rw [show (2 : ℝ) * (44.2377 * Real.pi / 720) = 44.2377 * Real.pi / 360 from
    by ring] at hsA2d
  have hsA2l : (0.37633277 : ℝ) ≤ Real.sin (44.2377 * Real.pi / 360) :=
    le_trans (by norm_num) hsA2d.1
  have hsA2u : Real.sin (44.2377 * Real.pi / 360) ≤ 0.37667225 :=
    le_trans hsA2d.2 (by norm_num)
  -- cos of latitude 40.7128 deg, via two halvings
  have hL1a : (0.17764306 : ℝ) ≤ 40.7128 * Real.pi / 720 := by linarith
  have hL1b : (40.7128 : ℝ) * Real.pi / 720 ≤ 0.17764313 := by linarith
  have hsL1i := sin_interval (by norm_num) (by norm_num) hL1a hL1b
  have hcL1i := cos_interval (by norm_num) (by norm_num) hL1a hL1b
  have hsL1hl : (0.17665687 : ℝ) ≤ Real.sin (40.7128 * Real.pi / 720) :=
    le_trans (by norm_num) hsL1i.1
  have hsL1hu : Real.sin (40.7128 * Real.pi / 720) ≤ 0.17676069 :=
    le_trans hsL1i.2 (by norm_num)
  have hcL1hl : (0.98416959 : ℝ) ≤ Real.cos (40.7128 * Real.pi / 720) :=
    le_trans (by norm_num) hcL1i.1
  have hcL1hu : Real.cos (40.7128 * Real.pi / 720) ≤ 0.98427334 :=
    le_trans hcL1i.2 (by norm_num)
  have hsL1d := sin_double_interval (by norm_num) (by norm_num)
    hsL1hl hsL1hu hcL1hl hcL1hu
  rw [show (2 : ℝ) * (40.7128 * Real.pi / 720) = 40.7128 * Real.pi / 360 from
    by ring] at hsL1d
  have hsL1l : (0.34772063 : ℝ) ≤ Real.sin (40.7128 * Real.pi / 360) :=
    le_trans (by norm_num) hsL1d.1
  have hsL1u : Real.sin (40.7128 * Real.pi / 360) ≤ 0.34796167 :=
    le_trans hsL1d.2 (by norm_num)
  have hcL1d := cos_double_interval (by norm_num) hsL1l hsL1u
  rw [show (2 : ℝ) * (40.7128 * Real.pi / 360) = 40.7128 * Real.pi / 180 from
    by ring] at hcL1d
  have hcL1l : (0.75784535 : ℝ) ≤ Real.cos (40.7128 * Real.pi / 180) :=
    le_trans (by norm_num) hcL1d.1
  have hcL1u : Real.cos (40.7128 * Real.pi / 180) ≤ 0.75818073 :=
    le_trans hcL1d.2 (by norm_num)
  -- cos of latitude 34.0522 deg, via two halvings
  have hL2a : (0.14858072 : ℝ) ≤ 34.0522 * Real.pi / 720 := by linarith
  have hL2b : (34.0522 : ℝ) * Real.pi / 720 ≤ 0.14858077 := by linarith
  have hsL2i := sin_interval (by norm_num) (by norm_num) hL2a hL2b
  have hcL2i := cos_interval (by norm_num) (by norm_num) hL2a hL2b
  have hsL2hl : (0.14800865 : ℝ) ≤ Real.sin (34.0522 * Real.pi / 720) :=
    le_trans (by norm_num) hsL2i.1
  have hsL2hu : Real.sin (34.0522 * Real.pi / 720) ≤ 0.14805947 :=
    le_trans hsL2i.2 (by norm_num)
  have hcL2hl : (0.98893649 : ℝ) ≤ Real.cos (34.0522 * Real.pi / 720) :=
    le_trans (by norm_num) hcL2i.1
  have hcL2hu : Real.cos (34.0522 * Real.pi / 720) ≤ 0.98898727 :=
    le_trans hcL2i.2 (by norm_num)
  have hsL2d := sin_double_interval (by norm_num) (by norm_num)
    hsL2hl hsL2hu hcL2hl hcL2hu
  rw [show (2 : ℝ) * (34.0522 * Real.pi / 720) = 34.0522 * Real.pi / 360 from
    by ring] at hsL2d
  have hsL2l : (0.29274230 : ℝ) ≤ Real.sin (34.0522 * Real.pi / 360) :=
    le_trans (by norm_num) hsL2d.1
  have hsL2u : Real.sin (34.0522 * Real.pi / 360) ≤ 0.29285787 :=
    le_trans hsL2d.2 (by norm_num)
  have hcL2d := cos_double_interval (by norm_num) hsL2l hsL2u
  rw [show (2 : ℝ) * (34.0522 * Real.pi / 360) = 34.0522 * Real.pi / 180 from
    by ring] at hcL2d
  have hcL2l : (0.82846853 : ℝ) ≤ Real.cos (34.0522 * Real.pi / 180) :=
    le_trans (by norm_num) hcL2d.1
  have hcL2u : Real.cos (34.0522 * Real.pi / 180) ≤ 0.82860390 :=
    le_trans hcL2d.2 (by norm_num)
  -- bounds on the intermediate a
  have hav_eq : havA 40.7128 (-74.0060) 34.0522 (-118.2437)
      = Real.sin (6.6606 * Real.pi / 360) ^ 2
        + Real.cos (40.7128 * Real.pi / 180) * Real.cos (34.0522 * Real.pi / 180)
          * Real.sin (44.2377 * Real.pi / 360) ^ 2 := by
    unfold havA toRad
    rw [show (34.0522 - 40.7128 : ℝ) * Real.pi / 180 / 2
        = -(6.6606 * Real.pi / 360) from by ring]
    rw [show (-118.2437 - -74.0060 : ℝ) * Real.pi / 180 / 2
        = -(44.2377 * Real.pi / 360) from by ring]
    rw [Real.sin_neg, Real.sin_neg, neg_sq, neg_sq]
  have hs1sq := sq_interval (by norm_num) hsA1l hsA1u
  have hs2sq := sq_interval (by norm_num) hsA2l hsA2u
  have hcc := mul_interval (by norm_num) (by norm_num) hcL1l hcL1u hcL2l hcL2u
  have hccs := mul_interval (by norm_num) (by norm_num) hcc.1 hcc.2
    hs2sq.1 hs2sq.2
  have haL : (0.09229485 : ℝ) ≤ havA 40.7128 (-74.0060) 34.0522 (-118.2437) := by
    rw [hav_eq]
    calc (0.09229485 : ℝ)
        ≤ 0.05809135 ^ 2 + 0.75784535 * 0.82846853 * 0.37633277 ^ 2 := by
          norm_num
      _ ≤ _ := add_le_add hs1sq.1 hccs.1
  have haU : havA 40.7128 (-74.0060) 34.0522 (-118.2437) ≤ 0.09250949 := by
    rw [hav_eq]
    calc Real.sin (6.6606 * Real.pi / 360) ^ 2
          + Real.cos (40.7128 * Real.pi / 180) * Real.cos (34.0522 * Real.pi / 180)
            * Real.sin (44.2377 * Real.pi / 360) ^ 2
        ≤ 0.05809258 ^ 2 + 0.75818073 * 0.82860390 * 0.37667225 ^ 2 :=
          add_le_add hs1sq.2 hccs.2
      _ ≤ 0.09250949 := by norm_num
  -- sin of the target half arcs 2440 / (2 * 3958.8) and 2450 / (2 * 3958.8)
  have hsB1i := sin_interval (by norm_num) (by norm_num)
    (le_refl ((1525 : ℝ) / 9897)) (le_refl ((1525 : ℝ) / 9897))
  have hcB1i := cos_interval (by norm_num) (by norm_num)
    (le_refl ((1525 : ℝ) / 9897)) (le_refl ((1525 : ℝ) / 9897))
  have hsB1hl : (0.15344799 : ℝ) ≤ Real.sin (1525 / 9897) :=
    le_trans (by norm_num) hsB1i.1
  have hsB1hu : Real.sin (1525 / 9897) ≤ 0.15350672 :=
    le_trans hsB1i.2 (by norm_num)
  have hcB1hl : (0.98809922 : ℝ) ≤ Real.cos (1525 / 9897) :=
    le_trans (by norm_num) hcB1i.1
  have hcB1hu : Real.cos (1525 / 9897) ≤ 0.98815795 :=
    le_trans hcB1i.2 (by norm_num)
  have hsB1d := sin_double_interval (by norm_num) (by norm_num)
    hsB1hl hsB1hu hcB1hl hcB1hu
  rw [show (2 : ℝ) * (1525 / 9897) = 3050 / 9897 from by norm_num] at hsB1d
  have hsB1l : (0.30324367 : ℝ) ≤ Real.sin (3050 / 9897) :=
    le_trans (by norm_num) hsB1d.1
  have hsB1u : Real.sin (3050 / 9897) ≤ 0.30337778 :=
    le_trans hsB1d.2 (by norm_num)
  have hsB2i := sin_interval (by norm_num) (by norm_num)
    (le_refl ((6125 : ℝ) / 39588)) (le_refl ((6125 : ℝ) / 39588))
  have hcB2i := cos_interval (by norm_num) (by norm_num)
    (le_refl ((6125 : ℝ) / 39588)) (le_refl ((6125 : ℝ) / 39588))
  have hsB2hl : (0.15407148 : ℝ) ≤ Real.sin (6125 / 39588) :=
    le_trans (by norm_num) hsB2i.1
  have hsB2hu : Real.sin (6125 / 39588) ≤ 0.15413118 :=
    le_trans hsB2i.2 (by norm_num)
  have hcB2hl : (0.98800123 : ℝ) ≤ Real.cos (6125 / 39588) :=
    le_trans (by norm_num) hcB2i.1
  have hcB2hu : Real.cos (6125 / 39588) ≤ 0.98806093 :=
    le_trans hcB2i.2 (by norm_num)
  have hsB2d := sin_double_interval (by norm_num) (by norm_num)
    hsB2hl hsB2hu hcB2hl hcB2hu
  rw [show (2 : ℝ) * (6125 / 39588) = 6125 / 19794 from by norm_num] at hsB2d
  have hsB2l : (0.30444562 : ℝ) ≤ Real.sin (6125 / 19794) :=
    le_trans (by norm_num) hsB2d.1
  have hsB2u : Real.sin (6125 / 19794) ≤ 0.30458200 :=
    le_trans hsB2d.2 (by norm_num)
  -- squeeze the distance between the two arcs
  have hs1 : Real.sin ((3050 : ℝ) / 9897) ^ 2
      ≤ havA 40.7128 (-74.0060) 34.0522 (-118.2437) := by
    calc Real.sin ((3050 : ℝ) / 9897) ^ 2
        ≤ (0.30337778 : ℝ) ^ 2 := (sq_interval (by norm_num) hsB1l hsB1u).2
      _ ≤ 0.09229485 := by norm_num
      _ ≤ _ := haL
  have hs2 : havA 40.7128 (-74.0060) 34.0522 (-118.2437)
      ≤ Real.sin ((6125 : ℝ) / 19794) ^ 2 := by
    calc havA 40.7128 (-74.0060) 34.0522 (-118.2437)
        ≤ 0.09250949 := haU
      _ ≤ (0.30444562 : ℝ) ^ 2 := by norm_num
      _ ≤ Real.sin ((6125 : ℝ) / 19794) ^ 2 :=
          (sq_interval (by norm_num) hsB2l hsB2u).1
  have hbounds := haversine_bounds_of_sin_sq
    (by norm_num : (0 : ℝ) ≤ 3050 / 9897)
    (by linarith : (6125 : ℝ) / 19794 ≤ Real.pi / 2)
    (by norm_num : (3050 : ℝ) / 9897 ≤ 6125 / 19794)
    hs1 hs2 (by linarith) (by linarith)
  have he1 : (3958.8 : ℝ) * (2 * (3050 / 9897)) = 2440 := by norm_num
  have he2 : (3958.8 : ℝ) * (2 * (6125 / 19794)) = 2450 := by norm_num
  rw [he1, he2] at hbounds
  rw [abs_le]
  constructor <;> linarith [hbounds.1, hbounds.2]

end Reflect
